import Mathlib

/-
  Verification of the Login Orchestration Subsystem of the POO-POC repository
  (src/poo/good): Credential Authenticator (AuthServiceImpl.ts), Session Store
  Adapter (StorageServiceImpl.ts), Session Manager and Login Use Case
  (SessionManager.ts).  Each TypeScript class is embedded as a Lean structure
  holding its private state, and each method as a pure function; the sources of
  nondeterminism used by the code (Date.now(), Math.random()) are passed in as
  explicit arguments.  Asynchrony (the simulated network delays) has no
  observable effect on state and is dropped.
-/

namespace POC

/-- User record from interfaces/AuthService.ts: readonly id, email, name. -/
structure User where
  id : String
  email : String
  name : String
deriving Repr, DecidableEq

/-- AuthResult from interfaces/AuthService.ts: a tagged union, either
success with user and token, or failure with an error string. -/
inductive AuthResult where
  | success (user : User) (token : String)
  | failure (error : String)
deriving Repr, DecidableEq

/-- One entry of AuthServiceImpl.validUsers: an email, a password and the
User issued on a match. -/
structure RegistryEntry where
  email : String
  password : String
  user : User
deriving Repr, DecidableEq

/-- The fixed registry AuthServiceImpl.validUsers (AuthServiceImpl.ts,
lines 30-45).  It is a readonly field with the same value in every
instance, so it is embedded as a constant. -/
def validUsers : List RegistryEntry :=
  [ { email := "test@test.com", password := "123456",
      user := { id := "1", email := "test@test.com", name := "Usuario Test" } },
    { email := "admin@test.com", password := "admin123",
      user := { id := "2", email := "admin@test.com", name := "Administrador" } } ]

/-- The mutable private state of an AuthServiceImpl instance: the Set of
currently valid tokens. -/
structure AuthServiceImpl where
  validTokens : Finset String
deriving DecidableEq

/-- AuthServiceImpl.generateToken: token composed of the user id, the
current timestamp (Date.now()) and a random suffix (Math.random based).
The timestamp and the random suffix are explicit arguments here. -/
def generateToken (userId : String) (now : Int) (rand : String) : String :=
  "token_" ++ userId ++ "_" ++ toString now ++ "_" ++ rand

/-- AuthServiceImpl.findValidUser: first registry entry whose email and
password both match. -/
def findValidUser (email password : String) : Option RegistryEntry :=
  validUsers.find? (fun u => u.email == email && u.password == password)

/-- AuthServiceImpl.authenticate.  JS falsiness of a string argument is
emptiness, so the `!email || !password` guard is the test against "".
Returns the AuthResult together with the updated service state. -/
def authenticate (svc : AuthServiceImpl) (email password : String)
    (now : Int) (rand : String) : AuthResult × AuthServiceImpl :=
  if email = "" ∨ password = "" then
    (.failure "Email y contraseña son requeridos", svc)
  else
    match findValidUser email password with
    | none => (.failure "Credenciales inválidas", svc)
    | some validUser =>
        let token := generateToken validUser.user.id now rand
        (.success validUser.user token,
         { svc with validTokens := insert token svc.validTokens })

/-- AuthServiceImpl.validateToken: membership in the valid-token set. -/
def validateToken (svc : AuthServiceImpl) (token : String) : Bool :=
  decide (token ∈ svc.validTokens)

/-- AuthServiceImpl.refreshToken: null when the token is unknown;
otherwise delete the old token, insert a newly generated one and return
it. -/
def refreshToken (svc : AuthServiceImpl) (token : String)
    (now : Int) (rand : String) : Option String × AuthServiceImpl :=
  if token ∈ svc.validTokens then
    let newToken := generateToken "refreshed" now rand
    (some newToken,
     { svc with validTokens := insert newToken (svc.validTokens.erase token) })
  else
    (none, svc)

/-- SessionState from SessionManager.ts: user, token, creation and expiry
timestamps in epoch milliseconds. -/
structure SessionState where
  user : User
  token : String
  createdAt : Int
  expiresAt : Int
deriving Repr, DecidableEq

/-- The state of a SessionManager instance.  `currentSession` is the
private in-memory field; `stored` is the deserialized value held at the
storage key "session" of the injected StorageService (none when absent or
malformed); `sessionDurationMs` is the private configuration computed in
the constructor. -/
structure SessionManager where
  currentSession : Option SessionState
  stored : Option SessionState
  sessionDurationMs : Int
deriving Repr, DecidableEq

/-- The constructor of SessionManager: converts the duration from hours to
milliseconds and runs restoreSession against the injected storage, which
keeps a stored snapshot only when its expiresAt is still in the future and
otherwise removes it from storage. -/
def mkSessionManager (stored0 : Option SessionState) (sessionDurationHours : Int)
    (now : Int) : SessionManager :=
  let d := sessionDurationHours * 60 * 60 * 1000
  match stored0 with
  | some s =>
      if s.expiresAt > now then
        { currentSession := some s, stored := some s, sessionDurationMs := d }
      else
        { currentSession := none, stored := none, sessionDurationMs := d }
  | none => { currentSession := none, stored := none, sessionDurationMs := d }

/-- SessionManager.startSession: build a fresh SessionState at the current
time and persist it (the user is spread-copied in TS, which is value
equality here). -/
def startSession (sm : SessionManager) (user : User) (token : String)
    (now : Int) : SessionManager :=
  let s : SessionState :=
    { user := user, token := token, createdAt := now,
      expiresAt := now + sm.sessionDurationMs }
  { sm with currentSession := some s, stored := some s }

/-- SessionManager.isExpired: true when no session is held or its
expiresAt is strictly in the past. -/
def isExpired (sm : SessionManager) (now : Int) : Bool :=
  match sm.currentSession with
  | none => true
  | some s => decide (now > s.expiresAt)

/-- SessionManager.getSession: null when no session is held or it is
expired; otherwise a defensive copy of the user together with the token. -/
def getSession (sm : SessionManager) (now : Int) : Option (User × String) :=
  match sm.currentSession with
  | none => none
  | some s => if now > s.expiresAt then none else some (s.user, s.token)

/-- SessionManager.getUser: the user of getSession, or null. -/
def getUser (sm : SessionManager) (now : Int) : Option User :=
  (getSession sm now).map Prod.fst

/-- SessionManager.getToken: currentSession?.token ?? null.  Note that the
source reads the raw field without an expiration check. -/
def getToken (sm : SessionManager) : Option String :=
  sm.currentSession.map SessionState.token

/-- SessionManager.endSession: drop the in-memory state and remove the
persisted record. -/
def endSession (sm : SessionManager) : SessionManager :=
  { sm with currentSession := none, stored := none }

/-- SessionManager.isActive: a session is held and not expired. -/
def isActive (sm : SessionManager) (now : Int) : Bool :=
  sm.currentSession.isSome && !(isExpired sm now)

/-- SessionManager.getTimeRemaining: zero when no session, otherwise the
time to expiry clamped at zero. -/
def getTimeRemaining (sm : SessionManager) (now : Int) : Int :=
  match sm.currentSession with
  | none => 0
  | some s => max 0 (s.expiresAt - now)

/-- SessionManager.extendSession: when a non-expired session is held, push
expiresAt to now plus the configured duration and re-persist; otherwise do
nothing. -/
def extendSession (sm : SessionManager) (now : Int) : SessionManager :=
  match sm.currentSession with
  | none => sm
  | some s =>
      if now > s.expiresAt then sm
      else
        let s2 : SessionState := { s with expiresAt := now + sm.sessionDurationMs }
        { sm with currentSession := some s2, stored := some s2 }

/-- LoginResult from SessionManager.ts: success flag with optional user
and optional error string. -/
structure LoginResult where
  success : Bool
  user : Option User
  error : Option String
deriving Repr, DecidableEq

/-- LogoutResult from SessionManager.ts. -/
structure LogoutResult where
  success : Bool
deriving Repr, DecidableEq

/-- AuthState from SessionManager.ts. -/
structure AuthState where
  isAuthenticated : Bool
  user : Option User
  isLoading : Bool
deriving Repr, DecidableEq

/-- A thrown JS value as observed by the catch block of
LoginUserUseCase.execute: either an Error with a message, or any other
value. -/
inductive Exc where
  | err (message : String)
  | other
deriving Repr, DecidableEq

/-- The message execute derives from a caught value: the message of an
Error instance, otherwise the generic fallback string. -/
def excMessage : Exc → String
  | .err m => m
  | .other => "Error desconocido durante el login"

/-- The character class \s of the email regular expression in
LoginUserUseCase.validateInput, which is also the character set JS
String.prototype.trim removes: tab, line feed, vertical tab, form feed,
carriage return, space, no-break space, Ogham space mark, the en-quad
through hair-space range U+2000..U+200A, line separator, paragraph
separator, narrow no-break space, medium mathematical space, ideographic
space and the byte-order mark. -/
def jsWhitespace (c : Char) : Bool :=
  c == ' ' || c == '\t' || c == '\n' || c == '\r' || c == '\x0b' || c == '\x0c' ||
  c == '\xa0' || c == '\u1680' ||
  decide (0x2000 ≤ c.toNat ∧ c.toNat ≤ 0x200a) ||
  c == '\u2028' || c == '\u2029' || c == '\u202f' || c == '\u205f' ||
  c == '\u3000' || c == '\ufeff'

/-- JS String.prototype.trim on a character sequence: whitespace dropped
from both ends. -/
def jsTrim (l : List Char) : List Char :=
  ((l.dropWhile jsWhitespace).reverse.dropWhile jsWhitespace).reverse

/-- Splitting a character sequence at every occurrence of a separator
character, keeping empty chunks (the behaviour JS String.split has for a
single-character separator). -/
def splitOnChar (c : Char) : List Char → List (List Char)
  | [] => [[]]
  | d :: rest =>
      match splitOnChar c rest with
      | [] => if d == c then [[], [d]] else [[d]]
      | h :: t => if d == c then [] :: h :: t else (d :: h) :: t

/-- Test of the regular expression /^[^\s@]+@[^\s@]+\.[^\s@]+$/ from
LoginUserUseCase.validateInput.  A string matches exactly when it has one
@, a non-empty whitespace-free local part before it, and a
whitespace-free domain part admitting a split B ++ "." ++ C with B and C
non-empty; because [^\s@] itself admits dots and the regex backtracks
over them, that condition is exactly that the domain part has a dot at
some interior position (neither first nor last character), so for example
"x@.a.b" and "x@a.b." both match while "x@.b" and "x@b." do not. -/
def emailRegexTest (s : String) : Bool :=
  match splitOnChar '@' s.data with
  | [localPart, domainPart] =>
      !localPart.isEmpty &&
      localPart.all (fun c => !(jsWhitespace c)) &&
      domainPart.all (fun c => !(jsWhitespace c)) &&
      (domainPart.drop 1).dropLast.contains '.'
  | _ => false

/-- LoginUserUseCase.validateInput: required-field checks, then the email
format check, in source order.  JS string falsiness is emptiness, so the
`!email?.trim()` guard is the emptiness test of the trimmed email. -/
def validateInput (email password : String) : Option String :=
  if (jsTrim email.data).isEmpty then some "El email es requerido"
  else if password = "" then some "La contraseña es requerida"
  else if !(emailRegexTest email) then some "Formato de email inválido"
  else none

/-- Everything observable about one LoginUserUseCase.execute call: its
returned LoginResult, the value of the private isLoading flag once the
call has resolved, and whether authService.authenticate was invoked. -/
structure ExecOutcome where
  result : LoginResult
  isLoading : Bool
  authCalled : Bool
deriving Repr, DecidableEq

/-- LoginUserUseCase.execute over its collaborators, which are arbitrary
implementations of the AuthService and SessionService interfaces: the
outcome of the authenticate call and of the startSession call are passed
as oracles (Except.error models a thrown value).  The structure mirrors
the source: the isLoading guard runs first and returns with the flag
untouched and the Authenticator not called; otherwise the flag is set,
the try block runs validation, authentication and session start, the
catch converts a thrown value via excMessage, and the finally block
clears the flag on every path. -/
def executeGen (isLoading0 : Bool) (email password : String)
    (authenticateCall : Except Exc AuthResult)
    (startSessionCall : Except Exc Unit) : ExecOutcome :=
  if isLoading0 then
    { result := { success := false, user := none, error := some "Login en progreso" },
      isLoading := isLoading0, authCalled := false }
  else
    match validateInput email password with
    | some msg =>
        { result := { success := false, user := none, error := some msg },
          isLoading := false, authCalled := false }
    | none =>
        match authenticateCall with
        | .error e =>
            { result := { success := false, user := none, error := some (excMessage e) },
              isLoading := false, authCalled := true }
        | .ok (.failure msg) =>
            { result := { success := false, user := none, error := some msg },
              isLoading := false, authCalled := true }
        | .ok (.success u _tok) =>
            match startSessionCall with
            | .error e =>
                { result := { success := false, user := none, error := some (excMessage e) },
                  isLoading := false, authCalled := true }
            | .ok _ =>
                { result := { success := true, user := some u, error := none },
                  isLoading := false, authCalled := true }

/-- LoginUserUseCase.logout over an arbitrary SessionService: the outcome
of the endSession call is an oracle; a thrown value is caught and
reported as failure, otherwise logout reports success. -/
def logoutGen (endSessionCall : Except Exc Unit) : LogoutResult :=
  match endSessionCall with
  | .error _ => { success := false }
  | .ok _ => { success := true }

/-- LoginUserUseCase.getAuthState against a SessionManager: isActive,
the user of getSession (?? null), and the private isLoading flag. -/
def getAuthState (sm : SessionManager) (isLoading : Bool) (now : Int) : AuthState :=
  { isAuthenticated := isActive sm now,
    user := (getSession sm now).map Prod.fst,
    isLoading := isLoading }

/-- A backing key-value store (the browser localStorage, or the private
Map of InMemoryStorageService): an association list of keys to stored
strings, first binding wins. -/
def KVStore := List (String × String)

/-- Lookup of a key in a backing store. -/
def lookupKV (k : String) : KVStore → Option String
  | [] => none
  | (k2, v) :: rest => if k2 = k then some v else lookupKV k rest

/-- Write of a key in a backing store: replace the binding in place when
the key is present, append otherwise (localStorage.setItem / Map.set). -/
def setKV (k v : String) : KVStore → KVStore
  | [] => [(k, v)]
  | (k2, v2) :: rest => if k2 = k then (k, v) :: rest else (k2, v2) :: setKV k v rest

/-- Removal of a key from a backing store (localStorage.removeItem /
Map.delete). -/
def eraseKV (k : String) (st : KVStore) : KVStore :=
  st.filter (fun kv => !(kv.1 = k : Bool))

/-- JS String.prototype.startsWith: the character sequence of the second
string is a prefix of that of the first. -/
def jsStartsWith (s pre : String) : Bool :=
  s.data.take pre.data.length == pre.data

/-- LocalStorageService.buildKey: the configured namespace prefix is
prepended to the caller's key.  The field is named pfx because its source
name is a Lean keyword. -/
def buildKey (pfx key : String) : String := pfx ++ key

/-- LocalStorageService.set: JSON.stringify the value (the serialization
is passed in as enc) and write it under the namespaced key.  The
try/catch around setItem only suppresses storage failures, which are not
modelled: a modelled write succeeds. -/
def lsSet {α : Type} (enc : α → String) (pfx key : String) (value : α)
    (st : KVStore) : KVStore :=
  setKV (buildKey pfx key) (enc value) st

/-- LocalStorageService.get: read the namespaced key; null when absent;
JSON.parse otherwise, where a parse failure is caught and yields null
(dec returns none exactly on the strings JSON.parse throws on). -/
def lsGet {α : Type} (dec : String → Option α) (pfx key : String)
    (st : KVStore) : Option α :=
  match lookupKV (buildKey pfx key) st with
  | none => none
  | some item => dec item

/-- LocalStorageService.remove: delete the namespaced key. -/
def lsRemove (pfx key : String) (st : KVStore) : KVStore :=
  eraseKV (buildKey pfx key) st

/-- LocalStorageService.clear: collect every key of the backing store
that starts with the namespace prefix, then remove exactly those. -/
def lsClear (pfx : String) (st : KVStore) : KVStore :=
  st.filter (fun kv => !(jsStartsWith kv.1 pfx))

/-- InMemoryStorageService.set: JSON.stringify into the private Map under
the raw key (this implementation applies no namespace prefix). -/
def memSet {α : Type} (enc : α → String) (key : String) (value : α)
    (m : KVStore) : KVStore :=
  setKV key (enc value) m

/-- InMemoryStorageService.get: undefined or an empty stored string is
null (the source tests JS falsiness of the looked-up item); otherwise
JSON.parse with a parse failure caught to null. -/
def memGet {α : Type} (dec : String → Option α) (key : String)
    (m : KVStore) : Option α :=
  match lookupKV key m with
  | none => none
  | some item => if item = "" then none else dec item

/-- InMemoryStorageService.remove: delete the raw key. -/
def memRemove (key : String) (m : KVStore) : KVStore :=
  eraseKV key m

/-- InMemoryStorageService.clear: Map.clear empties the private map. -/
def memClear (_ : KVStore) : KVStore := []

/-- The states a Session Manager lineage can be in, together with the
current clock value (Date.now() in epoch milliseconds, nondecreasing
across calls): the constructor over an empty storage, the constructor
re-run over the storage a previous manager of the lineage left behind
(restoreSession reads what startSession, extendSession and endSession
persisted), and the three mutating operations. -/
inductive Reachable (sessionDurationHours : Int) : SessionManager → Int → Prop
  | fresh (t : Int) :
      Reachable sessionDurationHours (mkSessionManager none sessionDurationHours t) t
  | reconstruct {sm : SessionManager} {t : Int} (t2 : Int) :
      Reachable sessionDurationHours sm t → t ≤ t2 →
      Reachable sessionDurationHours (mkSessionManager sm.stored sessionDurationHours t2) t2
  | start {sm : SessionManager} {t : Int} (u : User) (tok : String) (t2 : Int) :
      Reachable sessionDurationHours sm t → t ≤ t2 →
      Reachable sessionDurationHours (startSession sm u tok t2) t2
  | extend {sm : SessionManager} {t : Int} (t2 : Int) :
      Reachable sessionDurationHours sm t → t ≤ t2 →
      Reachable sessionDurationHours (extendSession sm t2) t2
  | finish {sm : SessionManager} {t : Int} (t2 : Int) :
      Reachable sessionDurationHours sm t → t ≤ t2 →
      Reachable sessionDurationHours (endSession sm) t2

/-- Inductive invariant for Reachable: the configured duration is the
constructor's conversion of hours to milliseconds, and every held or
persisted SessionState was created no later than the current clock and
satisfies createdAt < expiresAt. -/
def SMInv (sessionDurationHours : Int) (sm : SessionManager) (t : Int) : Prop :=
  sm.sessionDurationMs = sessionDurationHours * 60 * 60 * 1000 ∧
  (∀ s, sm.currentSession = some s → s.createdAt < s.expiresAt ∧ s.createdAt ≤ t) ∧
  (∀ s, sm.stored = some s → s.createdAt < s.expiresAt ∧ s.createdAt ≤ t)

/-- A registry entry cannot satisfy the authenticate matcher for a pair
that differs from its own credentials. -/
theorem findValidUser_eq_none (email password : String)
    (h : ∀ ent ∈ validUsers, ¬(ent.email = email ∧ ent.password = password)) :
    findValidUser email password = none := by
  unfold findValidUser
  rw [List.find?_eq_none]
  intro ent hent
  have h2 := h ent hent
  simp only [Bool.and_eq_true, beq_iff_eq, not_and]
  intro he hp
  exact h2 ⟨he, hp⟩

/-- C1: authenticate on the fixed registry.  Every (email, password) pair
of AuthServiceImpl.validUsers is accepted with the registered User, whose
email field equals the input email; the pair ("test@test.com", "123456")
yields exactly the user with id "1", email "test@test.com" and name
"Usuario Test"; and every non-empty pair matching no registry entry is
rejected with the error "Credenciales inválidas". -/
theorem authenticate_registry_correct :
    (∀ (svc : AuthServiceImpl) (now : Int) (rand : String) (ent : RegistryEntry),
        ent ∈ validUsers →
        (authenticate svc ent.email ent.password now rand).1
            = .success ent.user (generateToken ent.user.id now rand)
          ∧ ent.user.email = ent.email) ∧
    (∀ (svc : AuthServiceImpl) (now : Int) (rand : String),
        (authenticate svc "test@test.com" "123456" now rand).1
          = .success { id := "1", email := "test@test.com", name := "Usuario Test" }
              (generateToken "1" now rand)) ∧
    (∀ (svc : AuthServiceImpl) (now : Int) (rand : String) (email password : String),
        email ≠ "" → password ≠ "" →
        (∀ ent ∈ validUsers, ¬(ent.email = email ∧ ent.password = password)) →
        (authenticate svc email password now rand).1
          = .failure "Credenciales inválidas") := by
  refine ⟨?_, ?_, ?_⟩
  · intro svc now rand ent hmem
    simp only [validUsers, List.mem_cons, List.not_mem_nil, or_false] at hmem
    rcases hmem with rfl | rfl
    · exact ⟨rfl, rfl⟩
    · exact ⟨rfl, rfl⟩
  · intro svc now rand
    rfl
  · intro svc now rand email password he hp hnm
    unfold authenticate
    rw [if_neg (by tauto)]
    rw [findValidUser_eq_none email password hnm]

/-- Witness for C1 at concrete inputs: the first registry pair succeeds
with the registered user, and a pair outside the registry fails with the
invalid-credentials error. -/
theorem authenticate_registry_correct_witness :
    (authenticate { validTokens := ∅ } "test@test.com" "123456" 5 "r").1
        = .success { id := "1", email := "test@test.com", name := "Usuario Test" }
            (generateToken "1" 5 "r") ∧
    (authenticate { validTokens := ∅ } "bad@test.com" "wrong" 5 "r").1
        = .failure "Credenciales inválidas" :=
  ⟨authenticate_registry_correct.2.1 { validTokens := ∅ } 5 "r",
   authenticate_registry_correct.2.2 { validTokens := ∅ } 5 "r" "bad@test.com" "wrong"
     (by decide) (by decide) (by decide)⟩

/-- C7: refreshToken on an unknown token returns null and leaves the
state unchanged; on a known token t it removes t (validateToken t becomes
false) and returns a newly generated token accepted by validateToken, the
new token being distinct from t (token generation is nondeterministic in
the source, so freshness of the generated string is a hypothesis). -/
theorem refreshToken_rotates_valid_set :
    ∀ (svc : AuthServiceImpl) (t : String) (now : Int) (rand : String),
      (t ∉ svc.validTokens → refreshToken svc t now rand = (none, svc)) ∧
      (t ∈ svc.validTokens → generateToken "refreshed" now rand ≠ t →
        (refreshToken svc t now rand).1 = some (generateToken "refreshed" now rand) ∧
        validateToken (refreshToken svc t now rand).2 t = false ∧
        validateToken (refreshToken svc t now rand).2
          (generateToken "refreshed" now rand) = true) := by
  intro svc t now rand
  constructor
  · intro hnot
    unfold refreshToken
    rw [if_neg hnot]
  · intro hmem hne
    unfold refreshToken validateToken
    rw [if_pos hmem]
    refine ⟨rfl, ?_, ?_⟩
    · simp only [decide_eq_false_iff_not, Finset.mem_insert]
      rintro (h | h)
      · exact hne h.symm
      · exact Finset.not_mem_erase t svc.validTokens h
    · simp [Finset.mem_insert]

/-- Witness for C7: refreshing an absent token over the empty set returns
null, and refreshing the sole valid token "t1" invalidates it and
validates the generated replacement. -/
theorem refreshToken_rotates_valid_set_witness :
    refreshToken { validTokens := ∅ } "x" 0 "r" = (none, { validTokens := ∅ }) ∧
    ((refreshToken { validTokens := {"t1"} } "t1" 0 "r").1
        = some (generateToken "refreshed" 0 "r") ∧
      validateToken (refreshToken { validTokens := {"t1"} } "t1" 0 "r").2 "t1" = false ∧
      validateToken (refreshToken { validTokens := {"t1"} } "t1" 0 "r").2
        (generateToken "refreshed" 0 "r") = true) :=
  ⟨(refreshToken_rotates_valid_set { validTokens := ∅ } "x" 0 "r").1 (by decide),
   (refreshToken_rotates_valid_set { validTokens := {"t1"} } "t1" 0 "r").2
     (by decide) (by decide)⟩

/-- C10: an authenticate call that fails, whether on empty input or on a
credential mismatch, leaves the service state (hence the valid-token set)
unchanged, so validateToken answers the same on every string afterwards. -/
theorem failed_authenticate_preserves_tokens :
    ∀ (svc : AuthServiceImpl) (email password : String) (now : Int)
      (rand msg : String),
      (authenticate svc email password now rand).1 = .failure msg →
      (authenticate svc email password now rand).2 = svc ∧
      ∀ s : String,
        validateToken (authenticate svc email password now rand).2 s
          = validateToken svc s := by
  intro svc email password now rand msg hfail
  have hstate : (authenticate svc email password now rand).2 = svc := by
    unfold authenticate at hfail ⊢
    split
    · rfl
    · split
      · rfl
      · simp_all
  exact ⟨hstate, fun s => by rw [hstate]⟩

/-- Witness for C10: a mismatching non-empty pair fails and leaves a
one-token service state intact. -/
theorem failed_authenticate_preserves_tokens_witness :
    (authenticate { validTokens := {"t1"} } "bad@test.com" "wrong" 0 "r").2
        = { validTokens := {"t1"} } ∧
    validateToken (authenticate { validTokens := {"t1"} } "bad@test.com" "wrong" 0 "r").2 "t1"
        = validateToken { validTokens := {"t1"} } "t1" :=
  ⟨(failed_authenticate_preserves_tokens { validTokens := {"t1"} } "bad@test.com" "wrong"
      0 "r" "Credenciales inválidas" (by decide)).1,
   (failed_authenticate_preserves_tokens { validTokens := {"t1"} } "bad@test.com" "wrong"
      0 "r" "Credenciales inválidas" (by decide)).2 "t1"⟩

/-- C2: startSession followed by getSession at the same instant returns
the stored user (value-equal on all fields) and token; once the clock is
strictly past the stored expiresAt, i.e. more than sessionDurationMs
after the start, getSession returns null. -/
theorem startSession_getSession_roundtrip
    (sm : SessionManager) (u : User) (tok : String) (now : Int)
    (hd : 0 < sm.sessionDurationMs) :
    getSession (startSession sm u tok now) now = some (u, tok) ∧
    ∀ later : Int, now + sm.sessionDurationMs < later →
      getSession (startSession sm u tok now) later = none := by
  constructor
  · show (if now > now + sm.sessionDurationMs then none else some (u, tok))
        = some (u, tok)
    rw [if_neg (by omega)]
  · intro later hlater
    show (if later > now + sm.sessionDurationMs then none else some (u, tok)) = none
    rw [if_pos (by omega)]

/-- Witness for C2 with the default 24-hour session over an empty store:
getSession immediately after startSession returns the pair, and one
millisecond past the TTL it returns null. -/
theorem startSession_getSession_roundtrip_witness :
    ((0 : Int) < (mkSessionManager none 24 0).sessionDurationMs ∧
     getSession
        (startSession (mkSessionManager none 24 0)
          { id := "1", email := "test@test.com", name := "Usuario Test" } "tk" 0) 0
        = some ({ id := "1", email := "test@test.com", name := "Usuario Test" }, "tk")) ∧
    getSession
        (startSession (mkSessionManager none 24 0)
          { id := "1", email := "test@test.com", name := "Usuario Test" } "tk" 0)
        86400001
        = none :=
  ⟨⟨by decide,
    (startSession_getSession_roundtrip (mkSessionManager none 24 0)
      { id := "1", email := "test@test.com", name := "Usuario Test" } "tk" 0
      (by decide)).1⟩,
   (startSession_getSession_roundtrip (mkSessionManager none 24 0)
      { id := "1", email := "test@test.com", name := "Usuario Test" } "tk" 0
      (by decide)).2 86400001 (by decide)⟩

/-- Counterexample for C5 as stated: in the manager started at time 0
with a 1-hour duration, observed at time 3600001 (strictly past the
stored expiresAt 3600000), getToken still returns the stored token
"tok0" instead of null: the read operations do not all hide the expired
session. -/
theorem expired_getToken_cex :
    (startSession (mkSessionManager none 1 0)
        { id := "1", email := "test@test.com", name := "Usuario Test" } "tok0" 0).currentSession
      = some { user := { id := "1", email := "test@test.com", name := "Usuario Test" },
               token := "tok0", createdAt := 0, expiresAt := 3600000 } ∧
    ((3600000 : Int) < 3600001) ∧
    getToken (startSession (mkSessionManager none 1 0)
        { id := "1", email := "test@test.com", name := "Usuario Test" } "tok0" 0)
      = some "tok0" := by
  refine ⟨rfl, by decide, rfl⟩

/-- C5 amended: when the held session's expiresAt is strictly in the
past, getSession, getUser return null, isActive returns false and
getTimeRemaining returns 0; getToken, however, performs no expiration
check and returns the stored token. -/
theorem expired_reads_amended
    (sm : SessionManager) (s : SessionState) (now : Int)
    (hs : sm.currentSession = some s) (he : s.expiresAt < now) :
    getSession sm now = none ∧
    getUser sm now = none ∧
    isActive sm now = false ∧
    getTimeRemaining sm now = 0 ∧
    getToken sm = some s.token := by
  have hgs : getSession sm now = none := by
    unfold getSession
    rw [hs]
    exact if_pos (by omega)
  refine ⟨hgs, ?_, ?_, ?_, ?_⟩
  · unfold getUser
    rw [hgs]
    rfl
  · unfold isActive isExpired
    rw [hs]
    simp only [Option.isSome_some, Bool.true_and]
    simp [decide_eq_true_eq]
    omega
  · unfold getTimeRemaining
    rw [hs]
    exact max_eq_left (by omega)
  · unfold getToken
    rw [hs]
    rfl

/-- Witness for C5 amended at the concrete expired state of the
counterexample scenario. -/
theorem expired_reads_amended_witness :
    getSession (startSession (mkSessionManager none 1 0)
        { id := "1", email := "test@test.com", name := "Usuario Test" } "tok0" 0) 3600001
      = none ∧
    getUser (startSession (mkSessionManager none 1 0)
        { id := "1", email := "test@test.com", name := "Usuario Test" } "tok0" 0) 3600001
      = none ∧
    isActive (startSession (mkSessionManager none 1 0)
        { id := "1", email := "test@test.com", name := "Usuario Test" } "tok0" 0) 3600001
      = false ∧
    getTimeRemaining (startSession (mkSessionManager none 1 0)
        { id := "1", email := "test@test.com", name := "Usuario Test" } "tok0" 0) 3600001
      = 0 ∧
    getToken (startSession (mkSessionManager none 1 0)
        { id := "1", email := "test@test.com", name := "Usuario Test" } "tok0" 0)
      = some "tok0" :=
  expired_reads_amended
    (startSession (mkSessionManager none 1 0)
      { id := "1", email := "test@test.com", name := "Usuario Test" } "tok0" 0)
    { user := { id := "1", email := "test@test.com", name := "Usuario Test" },
      token := "tok0", createdAt := 0, expiresAt := 3600000 }
    3600001 rfl (by decide)

/-- Counterexample for C3 as stated: a call entered while isLoading is
true is rejected without invoking the Authenticator, but the error string
the source returns is "Login en progreso", not "login in progress". -/
theorem login_in_progress_message_cex :
    (executeGen true "test@test.com" "123456"
        (.ok (.failure "unused")) (.ok ())).result.error
      = some "Login en progreso" ∧
    some "Login en progreso" ≠ (some "login in progress" : Option String) := by
  exact ⟨rfl, by decide⟩

/-- C3 amended: a call entered while a previous execute call is still in
progress immediately returns success false with the error "Login en
progreso" (the source's string; the claim's "login in progress" appears
nowhere in the code), returns no user, leaves the flag as it was and does
not invoke the Authenticator's authenticate, whatever the collaborators
would have done. -/
theorem execute_guard_rejects_reentrant :
    ∀ (email password : String) (authenticateCall : Except Exc AuthResult)
      (startSessionCall : Except Exc Unit),
      executeGen true email password authenticateCall startSessionCall
        = { result := { success := false, user := none, error := some "Login en progreso" },
            isLoading := true, authCalled := false } := by
  intro email password authenticateCall startSessionCall
  rfl

/-- C4: no exception escapes the use case.  When the Authenticator throws
(input having passed validation) or the Session Manager's startSession
throws (authentication having succeeded), execute returns success false
carrying the exception's message (excMessage yields the Error message, or
the generic string for a non-Error value); and logout returns success
false when endSession throws and success true otherwise, never
propagating. -/
theorem execute_catches_collaborator_exceptions :
    ∀ (email password : String) (e : Exc) (u : User) (tok : String)
      (startSessionCall : Except Exc Unit),
      (validateInput email password = none →
        (executeGen false email password (.error e) startSessionCall).result
          = { success := false, user := none, error := some (excMessage e) }) ∧
      (validateInput email password = none →
        (executeGen false email password (.ok (.success u tok)) (.error e)).result
          = { success := false, user := none, error := some (excMessage e) }) ∧
      logoutGen (.error e) = { success := false } ∧
      logoutGen (.ok ()) = { success := true } := by
  intro email password e u tok startSessionCall
  refine ⟨?_, ?_, rfl, rfl⟩
  · intro hv
    unfold executeGen
    rw [if_neg (by simp)]
    rw [hv]
  · intro hv
    unfold executeGen
    rw [if_neg (by simp)]
    rw [hv]

/-- Witness for C4 on a well-formed input: an Error thrown by the
Authenticator surfaces as its message, an Error thrown by startSession
surfaces as its message, and logout converts a throw into success false. -/
theorem execute_catches_collaborator_exceptions_witness :
    (executeGen false "test@test.com" "123456" (.error (.err "boom"))
        (.ok ())).result
      = { success := false, user := none, error := some "boom" } ∧
    (executeGen false "test@test.com" "123456"
        (.ok (.success { id := "1", email := "test@test.com", name := "Usuario Test" } "tk"))
        (.error .other)).result
      = { success := false, user := none,
          error := some "Error desconocido durante el login" } ∧
    logoutGen (.error (.err "boom")) = { success := false } ∧
    logoutGen (.ok ()) = { success := true } :=
  ⟨(execute_catches_collaborator_exceptions "test@test.com" "123456" (.err "boom")
      { id := "1", email := "test@test.com", name := "Usuario Test" } "tk" (.ok ())).1
      (by decide),
   (execute_catches_collaborator_exceptions "test@test.com" "123456" .other
      { id := "1", email := "test@test.com", name := "Usuario Test" } "tk" (.ok ())).2.1
      (by decide),
   (execute_catches_collaborator_exceptions "test@test.com" "123456" (.err "boom")
      { id := "1", email := "test@test.com", name := "Usuario Test" } "tk" (.ok ())).2.2.1,
   (execute_catches_collaborator_exceptions "test@test.com" "123456" (.err "boom")
      { id := "1", email := "test@test.com", name := "Usuario Test" } "tk" (.ok ())).2.2.2⟩

/-- C9: an execute call entered with the in-progress flag false resolves
with the flag false again on every exit path, whatever the validation
outcome and whatever the two collaborator calls do, including throwing;
consequently getAuthState reports isLoading false against any session
state afterwards. -/
theorem execute_clears_loading_flag :
    ∀ (email password : String) (authenticateCall : Except Exc AuthResult)
      (startSessionCall : Except Exc Unit) (sm : SessionManager) (now : Int),
      (executeGen false email password authenticateCall startSessionCall).isLoading
          = false ∧
      (getAuthState sm
          (executeGen false email password authenticateCall startSessionCall).isLoading
          now).isLoading
        = false := by
  intro email password authenticateCall startSessionCall sm now
  have h : (executeGen false email password authenticateCall startSessionCall).isLoading
      = false := by
    unfold executeGen
    rw [if_neg (by simp)]
    rcases hv : validateInput email password with _ | msg
    · rcases authenticateCall with e | r
      · rfl
      · rcases r with ⟨u, tok⟩ | msg2
        · rcases startSessionCall with e2 | u2
          · rfl
          · rfl
        · rfl
    · rfl
  exact ⟨h, by rw [h]; rfl⟩

/-- The inductive invariant holds along every Reachable derivation when
the configured duration is positive. -/
theorem reachable_SMInv {sessionDurationHours : Int} {sm : SessionManager} {t : Int}
    (hpos : 0 < sessionDurationHours)
    (hre : Reachable sessionDurationHours sm t) :
    SMInv sessionDurationHours sm t := by
  have hms : 0 < sessionDurationHours * 60 * 60 * 1000 := by omega
  induction hre with
  | fresh t0 =>
      refine ⟨rfl, ?_, ?_⟩ <;> intro s hs <;> simp [mkSessionManager] at hs
  | reconstruct t2 hre hle ih =>
      rename_i sm1 t1
      obtain ⟨ihd, ihc, ihs⟩ := ih
      unfold mkSessionManager
      split
      · rename_i s hstored
        obtain ⟨h1, h2⟩ := ihs s hstored
        split
        · refine ⟨rfl, ?_, ?_⟩ <;> intro s2 hs2 <;>
            simp only [Option.some.injEq] at hs2 <;> subst hs2 <;>
            exact ⟨h1, le_trans h2 hle⟩
        · refine ⟨rfl, ?_, ?_⟩ <;> intro s2 hs2 <;> simp at hs2
      · refine ⟨rfl, ?_, ?_⟩ <;> intro s2 hs2 <;> simp at hs2
  | start u tok t2 hre hle ih =>
      rename_i sm1 t1
      obtain ⟨ihd, ihc, ihs⟩ := ih
      have hlt : t2 < t2 + sm1.sessionDurationMs := by rw [ihd]; omega
      refine ⟨ihd, ?_, ?_⟩ <;> intro s2 hs2 <;>
        simp only [startSession, Option.some.injEq] at hs2 <;> subst hs2 <;>
        exact ⟨hlt, le_refl t2⟩
  | extend t2 hre hle ih =>
      rename_i sm1 t1
      obtain ⟨ihd, ihc, ihs⟩ := ih
      unfold extendSession
      split
      · refine ⟨ihd, ?_, ?_⟩
        · intro s2 hs2
          obtain ⟨h1, h2⟩ := ihc s2 hs2
          exact ⟨h1, le_trans h2 hle⟩
        · intro s2 hs2
          obtain ⟨h1, h2⟩ := ihs s2 hs2
          exact ⟨h1, le_trans h2 hle⟩
      · rename_i s hcur
        split
        · refine ⟨ihd, ?_, ?_⟩
          · intro s2 hs2
            obtain ⟨h1, h2⟩ := ihc s2 hs2
            exact ⟨h1, le_trans h2 hle⟩
          · intro s2 hs2
            obtain ⟨h1, h2⟩ := ihs s2 hs2
            exact ⟨h1, le_trans h2 hle⟩
        · obtain ⟨h1, h2⟩ := ihc s hcur
          have h3 : s.createdAt ≤ t2 := le_trans h2 hle
          have h4 : s.createdAt < t2 + sm1.sessionDurationMs := by rw [ihd]; omega
          refine ⟨ihd, ?_, ?_⟩ <;> intro s2 hs2 <;>
            simp only [Option.some.injEq] at hs2 <;> subst hs2 <;>
            exact ⟨h4, h3⟩
  | finish t2 hre hle ih =>
      obtain ⟨ihd, ihc, ihs⟩ := ih
      refine ⟨ihd, ?_, ?_⟩ <;> intro s2 hs2 <;>
        simp [endSession] at hs2

/-- Counterexample for C8 as stated: with the constructor-supplied
duration 0 hours (the claim quantifies over every duration), the state
reached by starting a session at time 0 holds a SessionState whose
expiresAt equals its createdAt, violating expiresAt > createdAt. -/
theorem session_invariant_zero_duration_cex :
    Reachable 0
      (startSession (mkSessionManager none 0 0)
        { id := "1", email := "test@test.com", name := "Usuario Test" } "tok" 0) 0 ∧
    (startSession (mkSessionManager none 0 0)
        { id := "1", email := "test@test.com", name := "Usuario Test" } "tok" 0).currentSession
      = some { user := { id := "1", email := "test@test.com", name := "Usuario Test" },
               token := "tok", createdAt := 0, expiresAt := 0 } ∧
    ¬ ({ user := { id := "1", email := "test@test.com", name := "Usuario Test" },
         token := "tok", createdAt := 0, expiresAt := 0 } : SessionState).createdAt
      < ({ user := { id := "1", email := "test@test.com", name := "Usuario Test" },
           token := "tok", createdAt := 0, expiresAt := 0 } : SessionState).expiresAt :=
  ⟨Reachable.start { id := "1", email := "test@test.com", name := "Usuario Test" } "tok" 0
     (Reachable.fresh 0) (le_refl 0),
   rfl, by decide⟩

/-- C8 amended: for every positive constructor-supplied session duration,
in every state of a Session Manager lineage reachable under a
nondecreasing clock — construction over an empty store, reconstruction
over the snapshots this lineage itself persisted, startSession,
extendSession and endSession — a held SessionState satisfies
expiresAt > createdAt. -/
theorem reachable_expiry_invariant
    (sessionDurationHours : Int) (sm : SessionManager) (t : Int) (s : SessionState)
    (hpos : 0 < sessionDurationHours)
    (hre : Reachable sessionDurationHours sm t)
    (hs : sm.currentSession = some s) :
    s.createdAt < s.expiresAt :=
  ((reachable_SMInv hpos hre).2.1 s hs).1

/-- Witness for C8 amended: the session started at time 0 by a 1-hour
manager satisfies the invariant. -/
theorem reachable_expiry_invariant_witness :
    ({ user := { id := "1", email := "test@test.com", name := "Usuario Test" },
       token := "tokW", createdAt := 0, expiresAt := 3600000 } : SessionState).createdAt
      < ({ user := { id := "1", email := "test@test.com", name := "Usuario Test" },
           token := "tokW", createdAt := 0, expiresAt := 3600000 } : SessionState).expiresAt :=
  reachable_expiry_invariant 1
    (startSession (mkSessionManager none 1 0)
      { id := "1", email := "test@test.com", name := "Usuario Test" } "tokW" 0) 0
    { user := { id := "1", email := "test@test.com", name := "Usuario Test" },
      token := "tokW", createdAt := 0, expiresAt := 3600000 }
    (by decide)
    (Reachable.start { id := "1", email := "test@test.com", name := "Usuario Test" } "tokW" 0
      (Reachable.fresh 0) (le_refl 0))
    rfl

/-- Reading back the key just written returns the written string. -/
theorem lookup_setKV_self (k v : String) :
    ∀ st : KVStore, lookupKV k (setKV k v st) = some v := by
  intro st
  induction st with
  | nil => simp [setKV, lookupKV]
  | cons hd tl ih =>
      obtain ⟨k2, v2⟩ := hd
      by_cases hk : k2 = k
      · subst hk
        simp [setKV, lookupKV]
      · simp only [setKV, lookupKV, if_neg hk]
        exact ih

/-- Frame property of LocalStorageService.clear over the backing store:
a key is gone exactly when it starts with the namespace prefix, and
any other key keeps its previous binding. -/
theorem lookup_lsClear (pfx key : String) :
    ∀ st : KVStore,
      lookupKV key (lsClear pfx st)
        = if jsStartsWith key pfx then none else lookupKV key st := by
  intro st
  induction st with
  | nil =>
      by_cases hsw : jsStartsWith key pfx <;> simp [lsClear, lookupKV, hsw]
  | cons hd tl ih =>
      obtain ⟨k2, v2⟩ := hd
      by_cases hsw : jsStartsWith k2 pfx
      · have hcl : lsClear pfx ((k2, v2) :: tl) = lsClear pfx tl := by
          simp [lsClear, hsw]
        rw [hcl, ih]
        by_cases hk : jsStartsWith key pfx
        · simp [hk]
        · have hne2 : k2 ≠ key := by
            intro h
            rw [h] at hsw
            exact absurd hsw (by simp [hk])
          simp [hk, lookupKV, hne2]
      · have hcl : lsClear pfx ((k2, v2) :: tl) = (k2, v2) :: lsClear pfx tl := by
          simp [lsClear, hsw]
        rw [hcl]
        by_cases hk : k2 = key
        · subst hk
          simp [lookupKV, hsw]
        · simp only [lookupKV, if_neg hk]
          exact ih

/-- The namespaced key built for a caller key always starts with the
namespace prefix. -/
theorem jsStartsWith_buildKey (pfx key : String) :
    jsStartsWith (buildKey pfx key) pfx = true := by
  simp [jsStartsWith, buildKey, String.data_append, List.take_left]

/-- C6: clear and read-after-write semantics of the two Session Store
Adapter implementations over an arbitrary backing store and an arbitrary
JSON codec (enc is JSON.stringify, total and never producing the empty
string; dec is JSON.parse with failures mapped to none; their round trip
is a hypothesis).  LocalStorageService.clear removes exactly the keys
starting with the adapter's namespace prefix and leaves every other key
of the shared backing store unchanged.  InMemoryStorageService applies no
prefix, but its backing Map is private and only ever holds this adapter's
own keys, and clear empties it.  Both implementations satisfy the same
adapter-level semantics: get after set returns the written value, and get
after clear returns null. -/
theorem storage_clear_and_roundtrip_semantics :
    ∀ {α : Type} (enc : α → String) (dec : String → Option α)
      (pfx key k2 : String) (v : α) (st m : KVStore),
      (∀ x, dec (enc x) = some x) →
      (∀ x, enc x ≠ "") →
      (lookupKV k2 (lsClear pfx st)
          = if jsStartsWith k2 pfx then none else lookupKV k2 st) ∧
      (lookupKV k2 (memClear m) = none) ∧
      (lsGet dec pfx key (lsSet enc pfx key v st) = some v) ∧
      (memGet dec key (memSet enc key v m) = some v) ∧
      (lsGet dec pfx key (lsClear pfx st) = none) ∧
      (memGet dec key (memClear m) = none) := by
  intro α enc dec pfx key k2 v st m hrt hne
  refine ⟨lookup_lsClear pfx k2 st, rfl, ?_, ?_, ?_, rfl⟩
  · unfold lsGet lsSet
    rw [lookup_setKV_self]
    exact hrt v
  · unfold memGet memSet
    rw [lookup_setKV_self]
    show (if enc v = "" then none else dec (enc v)) = some v
    rw [if_neg (hne v)]
    exact hrt v
  · unfold lsGet
    rw [lookup_lsClear pfx (buildKey pfx key) st, if_pos (jsStartsWith_buildKey pfx key)]

/-- Witness for C6 with the Boolean codec enc true = "T", enc false =
"F" over concrete stores: the frame of LocalStorageService.clear keeps
the foreign key "other" of the shared store and drops the namespaced one,
and both adapters satisfy read-after-write and get-after-clear. -/
theorem storage_clear_and_roundtrip_semantics_witness :
    (lookupKV "other" (lsClear "app_" [("app_session", "T"), ("other", "F")])
        = if jsStartsWith "other" "app_" then none
          else lookupKV "other" [("app_session", "T"), ("other", "F")]) ∧
    (lookupKV "other" (memClear [("session", "T")]) = none) ∧
    (lsGet (fun s => if s = "T" then some true else if s = "F" then some false else none)
        "app_" "session" (lsSet (fun b => if b then "T" else "F") "app_" "session" true
          [("app_session", "T"), ("other", "F")])
        = some true) ∧
    (memGet (fun s => if s = "T" then some true else if s = "F" then some false else none)
        "session" (memSet (fun b => if b then "T" else "F") "session" true [("session", "T")])
        = some true) ∧
    (lsGet (fun s => if s = "T" then some true else if s = "F" then some false else none)
        "app_" "session" (lsClear "app_" [("app_session", "T"), ("other", "F")])
        = none) ∧
    (memGet (fun s => if s = "T" then some true else if s = "F" then some false else none)
        "session" (memClear [("session", "T")])
        = none) :=
  storage_clear_and_roundtrip_semantics
    (fun b => if b then "T" else "F")
    (fun s => if s = "T" then some true else if s = "F" then some false else none)
    "app_" "session" "other" true
    [("app_session", "T"), ("other", "F")] [("session", "T")]
    (fun x => by cases x <;> rfl)
    (fun x => by cases x <;> decide)

end POC
